import Mathlib

/-
Verification of the chimera-v4.0 repository against its natural-language
specification.

The repository ships the frontend (React/TypeScript and a second JSX
variant) together with the documented contract of the Training &
Evaluation Engine; the engine itself is not part of the source tree, so
the engine-side operations (DatasetView.summarize, Resampler,
CrossValidator, InferenceService) are modelled from the spec and marked
as such in their doc comments.  Everything else is a shallow embedding
of the TypeScript/JSX source files.
-/

namespace Chimera

/-! ## Embedding of `src/frontend/src/api/client.ts` -/

/-- Field names of the TypeScript record type `DatasetSummary`
(`client.ts` lines 19-25), in declaration order. -/
def datasetSummaryFields : List String :=
  ["rows", "columns", "target_column", "positive_rate", "feature_columns"]

/-- Field names of the TypeScript record type `ModelMetrics`
(`client.ts` lines 27-35), in declaration order. -/
def modelMetricsFields : List String :=
  ["model_key", "accuracy_mean", "accuracy_std",
   "f1_mean", "f1_std", "roc_auc_mean", "roc_auc_std"]

/-- Field names of the TypeScript record type `RocCurve`
(`client.ts` line 37). -/
def rocCurveFields : List String := ["fpr", "tpr", "thresholds"]

/-- Field names of the TypeScript record type `MetricsResponse`
(`client.ts` lines 39-44), in declaration order. -/
def metricsResponseFields : List String :=
  ["best_model", "metrics", "roc", "trained_at"]

/-- The optional fields of `MetricsResponse`: the source declares
`roc?: RocCurve | null`, every other field is required. -/
def metricsResponseOptionalFields : List String := ["roc"]

/-- Field names of `TrainResponse = MetricsResponse & { artifact_uri: string }`
(`client.ts` line 46). -/
def trainResponseFields : List String :=
  metricsResponseFields ++ ["artifact_uri"]

/-- Value-level embedding of `ModelMetrics`.  Numeric JSON fields are
embedded as rationals. -/
structure ModelMetrics where
  model_key : String
  accuracy_mean : ℚ
  accuracy_std : ℚ
  f1_mean : ℚ
  f1_std : ℚ
  roc_auc_mean : ℚ
  roc_auc_std : ℚ
  deriving DecidableEq, Repr

/-- Value-level embedding of `RocCurve`. -/
structure RocCurve where
  fpr : List ℚ
  tpr : List ℚ
  thresholds : List ℚ
  deriving DecidableEq, Repr

/-- Value-level embedding of `MetricsResponse`; `roc?: RocCurve | null`
becomes an `Option`. -/
structure MetricsResponse where
  best_model : String
  metrics : List ModelMetrics
  roc : Option RocCurve
  trained_at : String
  deriving DecidableEq, Repr

/-- Value-level embedding of `TrainResponse = MetricsResponse &
\x7b artifact_uri: string \x7d`. -/
structure TrainResponse extends MetricsResponse where
  artifact_uri : String
  deriving DecidableEq, Repr

/-- Value-level embedding of `DatasetSummary`. -/
structure DatasetSummary where
  rows : Nat
  columns : Nat
  target_column : String
  positive_rate : ℚ
  feature_columns : List String
  deriving DecidableEq, Repr

/-- Value-level embedding of the response type of `predict`
(`client.ts` line 64): `\x7b probability: number; threshold: number \x7d`. -/
structure PredictResponse where
  probability : ℚ
  threshold : ℚ
  deriving DecidableEq, Repr

/-- An HTTP response as observed by `request` in `client.ts`:
`ok` and `status` from the fetch response, `text` the body text that
`res.text()` would yield, and `json` the value `res.json()` would parse
to (of the operation's response type `J`). -/
structure HttpResponse (J : Type) where
  ok : Bool
  status : Nat
  text : String
  json : J

/-- Embedding of `request` (`client.ts` lines 3-17): on a non-ok
response it throws an `Error` whose message is the body text, or
`HTTP <status>` when the body text is empty (JavaScript `text ||
...` treats the empty string as falsy); on an ok response it returns
the parsed JSON body. -/
def request {J : Type} (res : HttpResponse J) : Except String J :=
  if !res.ok then
    Except.error (if res.text = "" then "HTTP " ++ toString res.status else res.text)
  else
    Except.ok res.json

/-- Embedding of `fetchDatasetSummary` (`client.ts` lines 48-50). -/
def fetchDatasetSummary (res : HttpResponse DatasetSummary) :
    Except String DatasetSummary :=
  request res

/-- Embedding of `train` (`client.ts` lines 52-57); the request body is
`\x7b models \x7d`, the response is a `TrainResponse`. -/
def train (models : List String) (res : HttpResponse TrainResponse) :
    Except String TrainResponse :=
  request res

/-- Embedding of `fetchMetrics` (`client.ts` lines 59-61). -/
def fetchMetrics (res : HttpResponse MetricsResponse) :
    Except String MetricsResponse :=
  request res

/-- Embedding of `predict` (`client.ts` lines 63-68); the request body
is `\x7b features \x7d`. -/
def predict (features : List (String × ℚ)) (res : HttpResponse PredictResponse) :
    Except String PredictResponse :=
  request res

/-- The error message `request` throws on a non-ok response:
the body text, or `HTTP <status>` when the body is empty. -/
def requestErrorMessage {J : Type} (res : HttpResponse J) : String :=
  if res.text = "" then "HTTP " ++ toString res.status else res.text

theorem request_not_ok {J : Type} (res : HttpResponse J) (h : res.ok = false) :
    request res = Except.error (requestErrorMessage res) := by
  simp [request, requestErrorMessage, h]

theorem request_ok {J : Type} (res : HttpResponse J) (h : res.ok = true) :
    request res = Except.ok res.json := by
  simp [request, h]

/-! ## Spec-modelled DatasetView (`summarize`)

The Training & Evaluation Engine is not in the source tree; only its
documented contract is.  `summarize` is modelled from spec §4.1 against
the `DatasetSummary` record type declared in `client.ts`. -/

/-- A scalar cell of the tabular dataset: numeric or
categorical-as-string (spec §3, Dataset). -/
inductive Value where
  | num : ℚ → Value
  | str : String → Value
  deriving DecidableEq, Repr

/-- A tabular dataset: ordered column names and rows of scalars, row
`r`'s entry for column `cols[j]` at position `j` (spec §3, Dataset). -/
structure Dataset where
  cols : List String
  rows : List (List Value)
  deriving DecidableEq, Repr

/-- A cell holds the binary label when it is the number `0` or `1`. -/
def Value.isBinary : Value → Bool
  | .num q => q = 0 || q = 1
  | .str _ => false

/-- Modelled from the spec: `DatasetView.summarize(dataset, target_column)`
(spec §4.1), which is not in `src/`.  Fails with `SchemaError` if the
target column is missing, a row lacks the target cell, the target is
non-binary, or fewer than 2 rows of the minority class exist;
otherwise returns the `DatasetSummary` record of `client.ts`:
`positive_rate = count(target==1)/row_count`, `feature_columns` = all
columns except the target in original order (no allow-list override is
modelled: the default is in force). -/
def summarize (ds : Dataset) (target : String) : Except String DatasetSummary :=
  match ds.cols.findIdx? (· = target) with
  | none => Except.error "SchemaError"
  | some ti =>
    match ds.rows.mapM (fun r => r[ti]?) with
    | none => Except.error "SchemaError"
    | some tvals =>
      if tvals.all Value.isBinary then
        if min ((tvals.filter (· = Value.num 1)).length)
               ((tvals.filter (· = Value.num 0)).length) < 2 then
          Except.error "SchemaError"
        else Except.ok
          { rows := ds.rows.length
            columns := ds.cols.length
            target_column := target
            positive_rate :=
              ((tvals.filter (· = Value.num 1)).length : ℚ) / (ds.rows.length : ℚ)
            feature_columns := ds.cols.filter (· ≠ target) }
      else Except.error "SchemaError"

/-! ## Model keys at the train/predict boundary

Two pages of the repository talk to the backend about models: the
TypeScript Dashboard (unnamed part_003, `MODEL_OPTIONS` + the
`selected` checkbox state posted by `train`) and the JSX Predictions
page (unnamed part_002, a `<select>` whose value is posted as
`model_name`). -/

/-- The `MODEL_OPTIONS` list of the Dashboard (part_003 lines 404-409):
(key, label) pairs. -/
def MODEL_OPTIONS : List (String × String) :=
  [("lr", "Logistic Regression"),
   ("knn", "KNN (k=5)"),
   ("nb", "Naive Bayes"),
   ("rf", "Random Forest")]

/-- The keys of `MODEL_OPTIONS`. -/
def modelOptionKeys : List String := MODEL_OPTIONS.map Prod.fst

/-- The Dashboard's initial selection:
`useState<string[]>(["lr", "knn", "nb", "rf"])` (part_003 line 413). -/
def initialSelected : List String := ["lr", "knn", "nb", "rf"]

/-- The Dashboard's `toggle` (part_003 lines 424-428): remove the key
if present, append it otherwise. -/
def toggle (key : String) (prev : List String) : List String :=
  if key ∈ prev then prev.filter (· ≠ key) else prev ++ [key]

/-- Selections reachable in the Dashboard: the initial state, updated
by `toggle` calls; `toggle` is only ever invoked with `m.key` for `m`
in `MODEL_OPTIONS` (part_003 line 486). -/
inductive SelectedReach : List String → Prop where
  | init : SelectedReach initialSelected
  | toggle {s : List String} (key : String) (hkey : key ∈ modelOptionKeys) :
      SelectedReach s → SelectedReach (toggle key s)

/-- Model options of the Predictions page `<select>` (part_002 lines
344-353): (value, label) pairs. -/
def predictionsModelOptions : List (String × String) :=
  [("random_forest", "Random Forest (Recommended)"),
   ("logistic_regression", "Logistic Regression"),
   ("knn", "k-Nearest Neighbors"),
   ("naive_bayes", "Naive Bayes")]

/-- The initial `selectedModel` state of the Predictions page
(part_002 line 272): `useState('random_forest')`; it is posted to the
backend as `model_name` (part_002 line 302). -/
def predictionsDefaultModel : String := "random_forest"

theorem toggle_subset {key : String} {s : List String}
    (hkey : key ∈ modelOptionKeys) (hs : ∀ k ∈ s, k ∈ modelOptionKeys) :
    ∀ k ∈ toggle key s, k ∈ modelOptionKeys := by
  intro k hk
  unfold toggle at hk
  by_cases hmem : key ∈ s
  · simp only [hmem, if_pos] at hk
    exact hs k (List.mem_of_mem_filter hk)
  · simp only [hmem, if_neg, List.mem_append, List.mem_singleton,
      not_false_eq_true] at hk
    rcases hk with hk | hk
    · exact hs k hk
    · exact hk ▸ hkey

theorem selectedReach_subset {s : List String} (h : SelectedReach s) :
    ∀ k ∈ s, k ∈ modelOptionKeys := by
  induction h with
  | init => intro k hk; simpa [initialSelected, modelOptionKeys, MODEL_OPTIONS] using hk
  | toggle key hkey _ ih => exact toggle_subset hkey ih

/-! ## Predictions page runner list (unnamed part_002, lines 249-289)

`defaultHorse` is a record of form-field strings; `horse_seq` is set
to a number by both `addRunner` and the initial state, so it is
embedded as `Nat` (the JavaScript default `''` is always overwritten
before a runner enters the list). -/

/-- A runner row of the Predictions form (part_002 lines 249-265). -/
structure Runner where
  horse_seq : Nat
  age : String
  weight : String
  body_weight : String
  draw : String
  sex : String
  shoe : String
  jockey_id : String
  trainer_id : String
  distance : String
  track : String
  penetrometer : String
  season : String
  club_name : String
  race_fav_horse : String
  deriving DecidableEq, Repr

/-- The `defaultHorse` record (part_002 lines 249-265): empty form fields except
`shoe: 'A'` and `season: 'regular'`. -/
def defaultHorse : Runner :=
  { horse_seq := 0, age := "", weight := "", body_weight := "", draw := ""
    sex := "", shoe := "A", jockey_id := "", trainer_id := "", distance := ""
    track := "", penetrometer := "", season := "regular", club_name := ""
    race_fav_horse := "" }

/-- The initial runner list:
`useState([\x7b ...defaultHorse, horse_seq: 1 \x7d])` (part_002 line 269). -/
def initialRunners : List Runner := [{ defaultHorse with horse_seq := 1 }]

/-- Embedding of `addRunner` (part_002 lines 274-276): append a fresh default
runner with `horse_seq = runners.length + 1`. -/
def addRunner (rs : List Runner) : List Runner :=
  rs ++ [{ defaultHorse with horse_seq := rs.length + 1 }]

/-- Embedding of `removeRunner(index)` (part_002 lines 278-283): only when more
than one runner remains, drop the element at `index`
(`filter((_, i) => i !== index)`, a no-op for an out-of-range index,
exactly `List.eraseIdx`) and renumber `horse_seq` to `i + 1`. -/
def removeRunner (index : Nat) (rs : List Runner) : List Runner :=
  if rs.length > 1 then
    (rs.eraseIdx index).mapIdx (fun i r => { r with horse_seq := i + 1 })
  else rs

/-- Runner lists reachable from the initial state by `addRunner` and
`removeRunner` calls. -/
inductive RunnersReach : List Runner → Prop where
  | init : RunnersReach initialRunners
  | add {s : List Runner} : RunnersReach s → RunnersReach (addRunner s)
  | remove {s : List Runner} (index : Nat) :
      RunnersReach s → RunnersReach (removeRunner index s)

/-! ## `RocCurveChart` (`src/frontend/src/components/charts/RocCurveChart.tsx`) -/

/-- One plotted point: `\x7b fpr, tpr: roc.tpr[i] \x7d`; in JavaScript
`roc.tpr[i]` is `undefined` when `i` is past the end of `tpr`, so the
`tpr` coordinate is an `Option`. -/
structure RocPoint where
  fpr : ℚ
  tpr : Option ℚ
  deriving DecidableEq, Repr

/-- What the component renders: the placeholder block for `roc = null`,
or the line chart over its data points. -/
inductive RocRender where
  | placeholder
  | chart : List RocPoint → RocRender
  deriving DecidableEq, Repr

/-- The `useMemo` data of `RocCurveChart` (`RocCurveChart.tsx` lines
16-19): `[]` for `null`, else `roc.fpr.map((fpr, i) => (\x7b fpr,
tpr: roc.tpr[i] \x7d))`. -/
def rocChartData (roc : Option RocCurve) : List RocPoint :=
  match roc with
  | none => []
  | some r => r.fpr.mapIdx (fun i f => { fpr := f, tpr := r.tpr[i]? })

/-- The component body (`RocCurveChart.tsx` lines 21-46): placeholder
when `roc` is `null`, otherwise the chart over `rocChartData`. -/
def rocCurveChart (roc : Option RocCurve) : RocRender :=
  match roc with
  | none => RocRender.placeholder
  | some r => RocRender.chart (rocChartData (some r))

/-! ## Spec-modelled InferenceService

Not in `src/` (the repository carries only the documented contract and
the Predict page's notes: "Missing features — Defaulted to 0.0 on
backend").  Modelled from spec §3 (FeatureContract) and §4.7. -/

/-- A column of the FeatureContract: numeric with fitted scaling
parameters (mean, std), or categorical with the fitted category list
(encoding = index in the list). -/
inductive ColumnSpec where
  | numeric (mean std : ℚ)
  | categorical (cats : List String)
  deriving DecidableEq, Repr

/-- Modelled from the spec: FeatureContract — ordered feature columns
with their fitted encoding/scaling (spec §3). -/
structure FeatureContract where
  columns : List (String × ColumnSpec)
  deriving DecidableEq, Repr

/-- A raw prediction-time feature value. -/
inductive FeatureValue where
  | num : ℚ → FeatureValue
  | str : String → FeatureValue
  deriving DecidableEq, Repr

/-- A prediction-time feature mapping (may omit columns);
`[]` is the empty mapping `\x7b\x7d`. -/
abbrev FeatureMap := List (String × FeatureValue)

/-- First binding of `name` in the mapping, if any. -/
def lookupFeature (fs : FeatureMap) (name : String) : Option FeatureValue :=
  (fs.find? (fun p => p.1 = name)).map Prod.snd

/-- The fitted categorical encoding (category → integer); a category
outside the fitted list — in particular the explicit "unknown"
category when it was not seen in training — encodes to the next free
integer `cats.length`. -/
def encodeCat (cats : List String) (s : String) : ℚ :=
  match cats.findIdx? (· = s) with
  | some i => (i : ℚ)
  | none => (cats.length : ℚ)

/-- The default substituted for a missing column (spec §3/§4.7):
`0.0` for numeric columns, the "unknown" category for categorical
columns. -/
def defaultValue : ColumnSpec → FeatureValue
  | .numeric _ _ => .num 0
  | .categorical _ => .str "unknown"

/-- Modelled from the spec: one coordinate of the inference vector —
apply the contract's fitted scaling/encoding to the supplied value,
substituting the column default when the value is missing or of the
wrong kind (spec §4.7). -/
def encodeColumn (spec : ColumnSpec) (v : Option FeatureValue) : ℚ :=
  match spec, v with
  | .numeric mean std, some (.num q) => (q - mean) / (if std = 0 then 1 else std)
  | .numeric mean std, _ => (0 - mean) / (if std = 0 then 1 else std)
  | .categorical cats, some (.str s) => encodeCat cats s
  | .categorical cats, _ => encodeCat cats "unknown"

/-- Modelled from the spec: build the feature vector in the contract's
fixed column order from a (possibly partial) feature mapping
(spec §4.7). -/
def buildVector (c : FeatureContract) (fs : FeatureMap) : List ℚ :=
  c.columns.map (fun p => encodeColumn p.2 (lookupFeature fs p.1))

/-- Modelled from the spec: the persisted model's parameters; its
probability function is a linear score squashed into [0,1]
(a computable stand-in for the classifier's `predict_proba`). -/
structure PersistedModel where
  weights : List ℚ
  bias : ℚ
  deriving DecidableEq, Repr

/-- The raw linear score of the persisted model on a vector. -/
def score (m : PersistedModel) (x : List ℚ) : ℚ :=
  m.bias + (List.zipWith (· * ·) m.weights x).sum

/-- A rational squashing function mapping any score into [0,1]; stands
in for the probability output of `predict_proba`. -/
def squash (t : ℚ) : ℚ := 1/2 + t / (2 * (1 + |t|))

theorem squash_nonneg_le_one (t : ℚ) : 0 ≤ squash t ∧ squash t ≤ 1 := by
  have hd : (0:ℚ) < 2 * (1 + |t|) := by positivity
  have habs : |t / (2 * (1 + |t|))| ≤ 1/2 := by
    rw [abs_div, abs_of_pos hd, div_le_iff₀ hd]
    have := abs_nonneg t
    linarith
  have hb := abs_le.mp habs
  constructor <;> unfold squash <;> linarith [hb.1, hb.2]

/-- Modelled from the spec: the persisted artifact consumed by
InferenceService — model parameters plus FeatureContract (spec §3). -/
structure Artifact where
  model : PersistedModel
  contract : FeatureContract
  deriving DecidableEq, Repr

/-- The fixed decision threshold returned for caller transparency
(spec §4.7). -/
def DECISION_THRESHOLD : ℚ := 1/2

/-- Modelled from the spec: `InferenceService.predict(features)`
(spec §4.7) — `NoArtifactError` when no artifact exists; otherwise
builds the contract-ordered vector with defaults for missing columns,
runs the model's probability function and returns the probability
together with the fixed 0.5 threshold (the threshold never gates the
response). -/
def predictService (art : Option Artifact) (fs : FeatureMap) :
    Except String PredictResponse :=
  match art with
  | none => Except.error "NoArtifactError"
  | some a => Except.ok
      { probability := squash (score a.model (buildVector a.contract fs))
        threshold := DECISION_THRESHOLD }

/-! ## Spec-modelled CrossValidator and Resampler

Not in `src/`.  Modelled from spec §4.2 (Resampler/SMOTE) and §4.5
(CrossValidator): per fold, the rows handed to the resampler are
exactly the rows selected by the fold's train indices; the model is
fit on the resampler's output; predictions are made on the
(unresampled) validation rows. -/

/-- An encoded dataset row: feature vector plus binary label. -/
structure LRow where
  features : List ℚ
  label : Nat
  deriving DecidableEq, Repr

/-- A fold: train and validation row-index lists (spec §3, Fold). -/
structure Fold where
  train_idx : List Nat
  val_idx : List Nat
  deriving DecidableEq, Repr

/-- Rows of `X` at the given indices (out-of-range indices select
nothing). -/
def selectRows (X : List LRow) (idx : List Nat) : List LRow :=
  idx.filterMap (fun i => X[i]?)

/-- What one fold of `evaluate` produces: the exact rows handed to the
resampler, the augmented training set the model is fit on, and the
untouched validation rows predicted on. -/
structure FoldOutcome where
  resamplerInput : List LRow
  augmented : List LRow
  valRows : List LRow
  deriving DecidableEq, Repr

/-- Modelled from the spec: one fold of `CrossValidator.evaluate`
(spec §4.5) — select the fold's training rows, resample them (the
resampler is fit on this fold's training partition alone), and keep
the fold's validation rows unresampled for prediction. -/
def foldStep (resample : List LRow → List LRow) (X : List LRow) (f : Fold) :
    FoldOutcome :=
  let tr := selectRows X f.train_idx
  { resamplerInput := tr
    augmented := resample tr
    valRows := selectRows X f.val_idx }

/-- Modelled from the spec: `CrossValidator.evaluate` over all folds
(spec §4.5); pure — the dataset `X` is only read. -/
def evaluate (resample : List LRow → List LRow) (X : List LRow)
    (folds : List Fold) : List FoldOutcome :=
  folds.map (foldStep resample X)

/-- Modelled from the spec: the final artifact refit input — the
resampler applied once more to the entire dataset (spec §4.8). -/
def finalRefitInput (resample : List LRow → List LRow) (X : List LRow) :
    List LRow :=
  resample X

/-- Squared Euclidean distance over feature vectors. -/
def sqDist (x y : List ℚ) : ℚ :=
  (List.zipWith (fun a b => (a - b) ^ 2) x y).sum

/-- The candidate nearer to `x` (first wins ties). -/
def nearer (x a b : List ℚ) : List ℚ :=
  if sqDist x b < sqDist x a then b else a

/-- Nearest candidate to `x`, if any. -/
def nearestNeighbor (x : List ℚ) : List (List ℚ) → Option (List ℚ)
  | [] => none
  | c :: cs => some (cs.foldl (nearer x) c)

/-- Interpolation along the segment from `x` to `xn`:
`x + lam * (xn - x)`. -/
def interpolate (lam : ℚ) (x xn : List ℚ) : List ℚ :=
  List.zipWith (fun a b => a + lam * (b - a)) x xn

/-- The `j`-th synthetic minority sample: base sample `j mod
minority_count`, nearest other minority sample as the chosen
neighbor, interpolation factor `1/2` as the deterministic stand-in
for `rnd(0,1)` (spec §4.2). -/
def smoteNew (minor : List LRow) (lbl j : Nat) : Option LRow :=
  match minor[j % minor.length]? with
  | none => none
  | some base =>
    match nearestNeighbor base.features
        ((minor.eraseIdx (j % minor.length)).map (·.features)) with
    | none => none
    | some nb => some { features := interpolate (1/2) base.features nb, label := lbl }

/-- Modelled from the spec: `Resampler.fit_resample` (spec §4.2) —
append synthetic minority samples until the minority count reaches the
majority count.  When the minority class has fewer than 2 members the
engine raises `ResamplingError`; this model returns its input
unchanged there (no claim in scope depends on that branch). -/
def fit_resample (rows : List LRow) : List LRow :=
  let ones := rows.filter (·.label = 1)
  let zeros := rows.filter (·.label ≠ 1)
  let minor := if ones.length ≤ zeros.length then ones else zeros
  let major := if ones.length ≤ zeros.length then zeros else ones
  if minor.length < 2 then rows
  else
    let lbl := if ones.length ≤ zeros.length then 1 else 0
    rows ++ (List.range (major.length - minor.length)).filterMap (smoteNew minor lbl)

theorem mem_selectRows {X : List LRow} {idx : List Nat} {r : LRow} :
    r ∈ selectRows X idx ↔ ∃ i ∈ idx, X[i]? = some r := by
  simp [selectRows, List.mem_filterMap]

theorem foldStep_resamplerInput (resample : List LRow → List LRow)
    (X : List LRow) (f : Fold) :
    (foldStep resample X f).resamplerInput = selectRows X f.train_idx := rfl

theorem foldStep_augmented (resample : List LRow → List LRow)
    (X : List LRow) (f : Fold) :
    (foldStep resample X f).augmented = resample (selectRows X f.train_idx) := rfl

theorem foldStep_valRows (resample : List LRow → List LRow)
    (X : List LRow) (f : Fold) :
    (foldStep resample X f).valRows = selectRows X f.val_idx := rfl

/-- Substituting the column default (`0.0` numeric, `"unknown"`
categorical) is exactly what a missing value encodes to. -/
theorem encodeColumn_none (spec : ColumnSpec) :
    encodeColumn spec none = encodeColumn spec (some (defaultValue spec)) := by
  cases spec <;> rfl

/-! ## Claim theorems -/

/-- Claim C2, as stated, is false on the code: the `DatasetSummary`
record of `client.ts` does not carry the fields `row_count` and
`column_count` — its fields are `rows` and `columns` — and it carries
an extra field `target_column` beyond the four the claim lists. -/
theorem C2_summary_fields_counterexample :
    datasetSummaryFields ≠
      ["row_count", "column_count", "positive_rate", "feature_columns"] ∧
    "row_count" ∉ datasetSummaryFields ∧
    "column_count" ∉ datasetSummaryFields ∧
    "target_column" ∈ datasetSummaryFields := by
  refine ⟨?_, ?_, ?_, ?_⟩ <;> decide

/-- Claim C2 (amended): for every dataset and target column, the
dataset summary operation either fails with `SchemaError` (malformed
dataset: target column missing, a row without the target cell, a
non-binary target, or fewer than 2 minority rows) or returns a record
with exactly the fields `rows`, `columns`, `target_column`,
`positive_rate`, `feature_columns`, holding the row count, the column
count, the target column name, `count(target==1)/row_count`, and the
non-target columns in original order. -/
theorem C2_summary_fields_amended :
    datasetSummaryFields =
      ["rows", "columns", "target_column", "positive_rate", "feature_columns"] ∧
    ∀ (ds : Dataset) (target : String),
      summarize ds target = Except.error "SchemaError" ∨
      ∃ s : DatasetSummary, summarize ds target = Except.ok s ∧
        s.rows = ds.rows.length ∧
        s.columns = ds.cols.length ∧
        s.target_column = target ∧
        s.feature_columns = ds.cols.filter (· ≠ target) ∧
        ∃ ti, ds.cols.findIdx? (· = target) = some ti ∧
        ∃ tvals, ds.rows.mapM (fun r => r[ti]?) = some tvals ∧
          tvals.all Value.isBinary = true ∧
          2 ≤ min ((tvals.filter (· = Value.num 1)).length)
                  ((tvals.filter (· = Value.num 0)).length) ∧
          s.positive_rate =
            ((tvals.filter (· = Value.num 1)).length : ℚ) / (ds.rows.length : ℚ) := by
  refine ⟨rfl, ?_⟩
  intro ds target
  unfold summarize
  split
  · exact Or.inl rfl
  rename_i ti h1
  split
  · exact Or.inl rfl
  rename_i tvals h2
  split
  · split
    · exact Or.inl rfl
    rename_i hb hmin
    exact Or.inr ⟨_, rfl, rfl, rfl, rfl, rfl, ti, h1, tvals, h2, hb, by omega, rfl⟩
  · exact Or.inl rfl

/-- Claim C3, as stated, is false on the code: the Predictions page
(unnamed part_002) posts its `selectedModel` to the backend as
`model_name`, and its initial value `random_forest` is not one of
`\x7blr, knn, nb, rf\x7d`. -/
theorem C3_model_keys_counterexample :
    predictionsDefaultModel ∈ predictionsModelOptions.map Prod.fst ∧
    predictionsDefaultModel ∉ modelOptionKeys := by
  constructor <;> decide

/-- Claim C3 (amended): the Dashboard train page's requestable model
keys are exactly `\x7blr, knn, nb, rf\x7d` — the `MODEL_OPTIONS` keys are
exactly these four and every reachable checkbox selection posted by
`train` stays within them — while the Predictions page's model select
sends one of `\x7brandom_forest, logistic_regression, knn,
naive_bayes\x7d` (initially `random_forest`). -/
theorem C3_model_keys_amended (sel : List String) (h : SelectedReach sel) :
    modelOptionKeys = ["lr", "knn", "nb", "rf"] ∧
    (∀ k ∈ sel, k ∈ modelOptionKeys) ∧
    predictionsModelOptions.map Prod.fst =
      ["random_forest", "logistic_regression", "knn", "naive_bayes"] ∧
    predictionsDefaultModel ∈ predictionsModelOptions.map Prod.fst :=
  ⟨by decide, selectedReach_subset h, by decide, by decide⟩

theorem C3_model_keys_amended_witness :
    modelOptionKeys = ["lr", "knn", "nb", "rf"] ∧ "lr" ∈ modelOptionKeys := by
  have h := C3_model_keys_amended (toggle "rf" initialSelected)
    (SelectedReach.toggle "rf" (by decide) SelectedReach.init)
  exact ⟨h.1, h.2.1 "lr" (by decide)⟩

/-- A `TrainResponse` with no ROC curve, allowed by the `client.ts`
declaration `roc?: RocCurve | null`. -/
def trainResponseNoRoc : TrainResponse :=
  { best_model := "rf", metrics := [], roc := none,
    trained_at := "2026-01-01T00:00:00Z",
    artifact_uri := "gs://chimera/artifacts/model/20260101_rf" }

/-- Claim C4, as stated, is false on the code: `client.ts` declares
the train result's ROC curve optional (`roc?: RocCurve | null`), so a
train result need not contain a pooled ROC curve — witnessed by a
concrete `TrainResponse` whose `roc` is absent. -/
theorem C4_train_result_counterexample :
    trainResponseNoRoc.roc = none ∧
    ¬ ∀ t : TrainResponse, t.roc.isSome = true := by
  refine ⟨rfl, fun h => ?_⟩
  have := h trainResponseNoRoc
  simp [trainResponseNoRoc] at this

/-- Claim C4 (amended): the train operation's result contains the
`best_model` key, per-model metrics with mean and standard deviation
of accuracy, F1 and ROC-AUC, a `trained_at` timestamp and an
`artifact_uri` reference string, and has a `roc` field for the pooled
ROC curve of `fpr`, `tpr` and `thresholds` arrays — but that field is
optional: the result may lack the curve. -/
theorem C4_train_result_amended :
    trainResponseFields =
      ["best_model", "metrics", "roc", "trained_at", "artifact_uri"] ∧
    modelMetricsFields =
      ["model_key", "accuracy_mean", "accuracy_std",
       "f1_mean", "f1_std", "roc_auc_mean", "roc_auc_std"] ∧
    rocCurveFields = ["fpr", "tpr", "thresholds"] ∧
    metricsResponseOptionalFields = ["roc"] ∧
    (∃ t : TrainResponse, t.roc = none) ∧
    (∃ t : TrainResponse, t.roc.isSome = true) := by
  refine ⟨rfl, rfl, rfl, rfl,
    ⟨{ best_model := "rf", metrics := [], roc := none,
       trained_at := "", artifact_uri := "" }, rfl⟩,
    ⟨{ best_model := "rf", metrics := [], roc := some ⟨[], [], []⟩,
       trained_at := "", artifact_uri := "" }, rfl⟩⟩

/-- Claim C5: the metrics (latest) operation's response type has
exactly the shape of the train response minus the artifact reference:
`MetricsResponse` holds `best_model`, the per-model metrics list, the
ROC curve and `trained_at`; `TrainResponse` extends it by
`artifact_uri` alone, and every metrics value extends to exactly one
train value per artifact reference. -/
theorem C5_metrics_shape :
    metricsResponseFields = ["best_model", "metrics", "roc", "trained_at"] ∧
    trainResponseFields = metricsResponseFields ++ ["artifact_uri"] ∧
    "artifact_uri" ∉ metricsResponseFields ∧
    metricsResponseFields = trainResponseFields.filter (· ≠ "artifact_uri") ∧
    ∀ (m : MetricsResponse) (uri : String),
      ∃! t : TrainResponse, t.toMetricsResponse = m ∧ t.artifact_uri = uri := by
  refine ⟨rfl, rfl, by decide, by decide, ?_⟩
  intro m uri
  refine ⟨TrainResponse.mk m uri, ⟨rfl, rfl⟩, ?_⟩
  rintro ⟨tm, tu⟩ ⟨h1, h2⟩
  cases h1
  cases h2
  rfl

/-- Claim C8: every client API operation goes through `request`
(`client.ts`): on a non-ok HTTP response it throws an `Error` whose
message is exactly the response body text, or `HTTP <status>` when the
body is empty, and returns no value; on an ok response it returns the
parsed JSON body. -/
theorem C8_request_error_surfacing :
    (∀ res : HttpResponse DatasetSummary,
      (res.ok = false →
        fetchDatasetSummary res = Except.error (requestErrorMessage res)) ∧
      (res.ok = true → fetchDatasetSummary res = Except.ok res.json)) ∧
    (∀ (models : List String) (res : HttpResponse TrainResponse),
      (res.ok = false → train models res = Except.error (requestErrorMessage res)) ∧
      (res.ok = true → train models res = Except.ok res.json)) ∧
    (∀ res : HttpResponse MetricsResponse,
      (res.ok = false → fetchMetrics res = Except.error (requestErrorMessage res)) ∧
      (res.ok = true → fetchMetrics res = Except.ok res.json)) ∧
    (∀ (features : List (String × ℚ)) (res : HttpResponse PredictResponse),
      (res.ok = false →
        predict features res = Except.error (requestErrorMessage res)) ∧
      (res.ok = true → predict features res = Except.ok res.json)) ∧
    (∀ (J : Type) (res : HttpResponse J),
      res.text = "" → requestErrorMessage res = "HTTP " ++ toString res.status) ∧
    (∀ (J : Type) (res : HttpResponse J),
      res.text ≠ "" → requestErrorMessage res = res.text) := by
  refine ⟨fun res => ⟨request_not_ok res, request_ok res⟩,
    fun models res => ⟨request_not_ok res, request_ok res⟩,
    fun res => ⟨request_not_ok res, request_ok res⟩,
    fun features res => ⟨request_not_ok res, request_ok res⟩,
    fun J res h => ?_, fun J res h => ?_⟩
  · simp [requestErrorMessage, h]
  · simp [requestErrorMessage, h]

/-- A sample parsed body used to instantiate C8 on concrete
responses. -/
def sampleSummary : DatasetSummary :=
  { rows := 0, columns := 0, target_column := "", positive_rate := 0,
    feature_columns := [] }

theorem C8_request_error_surfacing_witness :
    fetchDatasetSummary (HttpResponse.mk false 500 "" sampleSummary) =
      Except.error "HTTP 500" ∧
    fetchDatasetSummary (HttpResponse.mk false 422 "SchemaError" sampleSummary) =
      Except.error "SchemaError" ∧
    fetchDatasetSummary (HttpResponse.mk true 200 "" sampleSummary) =
      Except.ok sampleSummary := by
  refine ⟨?_, ?_, ?_⟩
  · rw [(C8_request_error_surfacing.1 (HttpResponse.mk false 500 "" sampleSummary)).1 rfl]
    rfl
  · rw [(C8_request_error_surfacing.1
      (HttpResponse.mk false 422 "SchemaError" sampleSummary)).1 rfl]
    rfl
  · exact (C8_request_error_surfacing.1 (HttpResponse.mk true 200 "" sampleSummary)).2 rfl

/-- Claim C1 (engine modelled from the spec): for every resampler,
dataset and fold list with disjoint train/validation indices, each
fold hands the resampler exactly the rows selected by its own train
indices; every row passed to the resampler comes from a train index
that is not a validation index; the validation rows each fold predicts
on are exactly the original dataset's rows at the fold's validation
indices, unchanged by (and independent of) the resampler; folds are
processed independently of one another; and the final artifact refit
alone applies the resampler to the full dataset. -/
theorem C1_smote_fold_locality
    (resample : List LRow → List LRow) (X : List LRow) (folds : List Fold)
    (hdisj : ∀ f ∈ folds, ∀ i ∈ f.val_idx, i ∉ f.train_idx) :
    (∀ f ∈ folds,
        (foldStep resample X f).resamplerInput = selectRows X f.train_idx ∧
        (foldStep resample X f).augmented = resample (selectRows X f.train_idx) ∧
        (foldStep resample X f).valRows = selectRows X f.val_idx) ∧
    (evaluate resample X folds = folds.map (foldStep resample X)) ∧
    (∀ f ∈ folds, ∀ r ∈ (foldStep resample X f).resamplerInput,
        ∃ i, i ∈ f.train_idx ∧ i ∉ f.val_idx ∧ X[i]? = some r) ∧
    (∀ f ∈ folds, ∀ r ∈ (foldStep resample X f).valRows,
        ∃ i, i ∈ f.val_idx ∧ X[i]? = some r) ∧
    (∀ resample2 : List LRow → List LRow,
        (evaluate resample X folds).map FoldOutcome.valRows =
        (evaluate resample2 X folds).map FoldOutcome.valRows) ∧
    (∀ folds1 folds2 : List Fold,
        evaluate resample X (folds1 ++ folds2) =
        evaluate resample X folds1 ++ evaluate resample X folds2) ∧
    finalRefitInput resample X = resample X := by
  refine ⟨fun f _ => ⟨rfl, rfl, rfl⟩, rfl, ?_, ?_, ?_, ?_, rfl⟩
  · intro f hf r hr
    rw [foldStep_resamplerInput] at hr
    obtain ⟨i, hi, hXi⟩ := mem_selectRows.mp hr
    exact ⟨i, hi, fun hvi => hdisj f hf i hvi hi, hXi⟩
  · intro f _ r hr
    rw [foldStep_valRows] at hr
    obtain ⟨i, hi, hXi⟩ := mem_selectRows.mp hr
    exact ⟨i, hi, hXi⟩
  · intro resample2
    simp only [evaluate, List.map_map]
    apply List.map_congr_left
    intro f _
    rfl
  · intro folds1 folds2
    simp [evaluate]

/-- A concrete encoded dataset for instantiating C1. -/
def cX : List LRow :=
  [⟨[0, 0], 0⟩, ⟨[1, 0], 0⟩, ⟨[0, 1], 0⟩, ⟨[1, 1], 1⟩, ⟨[2, 1], 1⟩, ⟨[2, 0], 0⟩]

/-- Two concrete disjoint folds over `cX`. -/
def cFolds : List Fold := [⟨[0, 1, 2, 3], [4, 5]⟩, ⟨[2, 3, 4, 5], [0, 1]⟩]

theorem C1_smote_fold_locality_witness :
    (foldStep fit_resample cX (Fold.mk [0, 1, 2, 3] [4, 5])).valRows =
      selectRows cX [4, 5] ∧
    (∃ i, i ∈ [0, 1, 2, 3] ∧ i ∉ [4, 5] ∧ cX[i]? = some (LRow.mk [0, 0] 0)) := by
  have h := C1_smote_fold_locality fit_resample cX cFolds (by decide)
  constructor
  · exact (h.1 (Fold.mk [0, 1, 2, 3] [4, 5]) (by decide)).2.2
  · exact h.2.2.1 (Fold.mk [0, 1, 2, 3] [4, 5]) (by decide)
      (LRow.mk [0, 0] 0) (by decide)

/-- Claim C6 (InferenceService modelled from the spec): prediction
never fails on missing feature keys — for every artifact and feature
mapping, the empty mapping included, it returns a probability in
[0,1]; a missing column encodes exactly as the default `0.0` (numeric)
or `"unknown"` (categorical), and on the empty mapping the whole
vector is built from those defaults. -/
theorem C6_predict_total_missing_features :
    (∀ (a : Artifact) (fs : FeatureMap), ∃ r : PredictResponse,
        predictService (some a) fs = Except.ok r ∧
        0 ≤ r.probability ∧ r.probability ≤ 1) ∧
    (∀ spec : ColumnSpec,
        encodeColumn spec none = encodeColumn spec (some (defaultValue spec))) ∧
    (∀ c : FeatureContract, buildVector c [] =
        c.columns.map (fun p => encodeColumn p.2 (some (defaultValue p.2)))) := by
  refine ⟨?_, encodeColumn_none, ?_⟩
  · intro a fs
    exact ⟨_, rfl, (squash_nonneg_le_one _).1, (squash_nonneg_le_one _).2⟩
  · intro c
    unfold buildVector
    apply List.map_congr_left
    intro p _
    have hnone : lookupFeature [] p.1 = none := rfl
    rw [hnone, encodeColumn_none]

/-- Claim C7 (InferenceService modelled from the spec): for every
feature mapping, prediction returns the probability — a value in
[0,1], equal to the model's probability output and unaffected by any
threshold comparison — together with the decision threshold, which
equals 0.5. -/
theorem C7_predict_threshold :
    DECISION_THRESHOLD = 1 / 2 ∧
    ∀ (a : Artifact) (fs : FeatureMap), ∃ r : PredictResponse,
      predictService (some a) fs = Except.ok r ∧
      r.threshold = DECISION_THRESHOLD ∧
      0 ≤ r.probability ∧ r.probability ≤ 1 ∧
      r.probability = squash (score a.model (buildVector a.contract fs)) := by
  refine ⟨rfl, ?_⟩
  intro a fs
  exact ⟨_, rfl, rfl, (squash_nonneg_le_one _).1, (squash_nonneg_le_one _).2, rfl⟩

/-- Claim C9: every runner list reachable from the initial state by
`addRunner`/`removeRunner` is non-empty (`removeRunner` is a no-op
when one runner remains), and the runner at index `i` always has
`horse_seq = i + 1`. -/
theorem C9_runner_list_invariant (s : List Runner) (h : RunnersReach s) :
    0 < s.length ∧
    ∀ i (hi : i < s.length), (s.get ⟨i, hi⟩).horse_seq = i + 1 := by
  induction h with
  | init =>
    refine ⟨by simp [initialRunners], ?_⟩
    intro i hi
    have h0 : i = 0 := Nat.lt_one_iff.mp (by simpa [initialRunners] using hi)
    subst h0
    rfl
  | @add s' _ ih =>
    refine ⟨by simp [addRunner], ?_⟩
    intro i hi
    rw [List.get_eq_getElem]
    unfold addRunner at hi ⊢
    rcases Nat.lt_or_ge i s'.length with hlt | hge
    · rw [List.getElem_append_left hlt]
      have hs := ih.2 i hlt
      rwa [List.get_eq_getElem] at hs
    · have hi' : i < s'.length + 1 := by simpa using hi
      have heq : i = s'.length := Nat.le_antisymm (Nat.lt_succ_iff.mp hi') hge
      rw [List.getElem_concat_length _ _ _ heq]
      rw [heq]
  | @remove s' index _ ih =>
    unfold removeRunner
    by_cases hl : s'.length > 1
    · rw [if_pos hl]
      constructor
      · rw [List.length_mapIdx, List.length_eraseIdx]
        split <;> omega
      · intro i hi
        rw [List.get_eq_getElem, List.getElem_mapIdx]
    · rw [if_neg hl]
      exact ih

theorem C9_runner_list_invariant_witness :
    0 < (removeRunner 0 (addRunner initialRunners)).length ∧
    ((removeRunner 0 (addRunner initialRunners)).get
      ⟨0, by decide⟩).horse_seq = 0 + 1 := by
  have h := C9_runner_list_invariant (removeRunner 0 (addRunner initialRunners))
    (RunnersReach.remove 0 (RunnersReach.add RunnersReach.init))
  exact ⟨h.1, h.2 0 (by decide)⟩

/-- Claim C10: `RocCurveChart` is total — `null` renders the
placeholder; a non-null curve renders the chart whose data has exactly
`fpr.length` points, point `i` pairing `fpr[i]` with `tpr[i]` by
index; the `thresholds` array is never read, and a `tpr` index past
the end of `tpr` yields an absent (`undefined`) value, not an error. -/
theorem C10_roc_chart_total :
    rocCurveChart none = RocRender.placeholder ∧
    (∀ r : RocCurve, rocCurveChart (some r) = RocRender.chart (rocChartData (some r))) ∧
    (∀ r : RocCurve, (rocChartData (some r)).length = r.fpr.length) ∧
    (∀ (r : RocCurve) (i : Nat) (hi : i < r.fpr.length),
        (rocChartData (some r))[i]? =
          some { fpr := r.fpr.get ⟨i, hi⟩, tpr := r.tpr[i]? }) ∧
    (∀ fpr tpr ts ts2 : List ℚ,
        rocCurveChart (some (RocCurve.mk fpr tpr ts)) =
        rocCurveChart (some (RocCurve.mk fpr tpr ts2))) ∧
    (∀ (r : RocCurve) (i : Nat) (hlen : r.tpr.length ≤ i) (hi : i < r.fpr.length),
        (rocChartData (some r))[i]? =
          some { fpr := r.fpr.get ⟨i, hi⟩, tpr := none }) := by
  have hpoint : ∀ (r : RocCurve) (i : Nat) (hi : i < r.fpr.length),
      (rocChartData (some r))[i]? =
        some { fpr := r.fpr.get ⟨i, hi⟩, tpr := r.tpr[i]? } := by
    intro r i hi
    simp [rocChartData, List.getElem?_mapIdx, List.getElem?_eq_getElem hi,
      List.get_eq_getElem]
  refine ⟨rfl, fun r => rfl, ?_, hpoint, fun fpr tpr ts ts2 => rfl, ?_⟩
  · intro r
    simp [rocChartData]
  · intro r i hlen hi
    rw [hpoint r i hi, List.getElem?_eq_none hlen]

/-- A concrete ROC curve whose `tpr` is shorter than its `fpr`. -/
def cRoc : RocCurve := ⟨[0, 1/2, 1], [0, 1], [1, 1/2, 0]⟩

theorem C10_roc_chart_total_witness :
    (rocChartData (some cRoc))[0]? = some { fpr := 0, tpr := some 0 } ∧
    (rocChartData (some cRoc))[2]? = some { fpr := 1, tpr := none } := by
  constructor
  · rw [C10_roc_chart_total.2.2.2.1 cRoc 0 (by decide)]
    decide
  · rw [C10_roc_chart_total.2.2.2.2.2 cRoc 2 (by decide) (by decide)]
    decide

end Chimera
